import Mathlib

/-!
Verification of the coreping benchmark (src/src/main.rs).

The program runs two threads communicating through two shared atomic
u64 counters `S1` and `S2`:
  * the initiator (the `main` thread, lines 102-121) busy-polls `S2`
    until it equals its local value, then does `S1.fetch_add(1, SeqCst)`
    and tracks the post-increment value;
  * the responder (`run_thread`, lines 49-68) busy-polls `S1` until it
    differs from its local value, then does `S2.fetch_add(1, SeqCst)`
    and tracks the post-increment value.
Both threads check a shared absolute deadline inside their spin loops.

We embed each thread as a deterministic step function over a program
counter, parameterised by the current time (`now`) and the shared
deadline, and form the system as a nondeterministic interleaving of the
two step functions.  Counters are `Nat` with an explicit wrap at 2^64
where the source uses u64 arithmetic.  Post-loop reporting (lines
123-146), CLI handling (lines 71-85) and affinity setup (lines 16-47,
87-100) are embedded as pure functions.
-/

/-- Wrap at 2^64 = 18446744073709551616: u64 arithmetic of the source. -/
def wrap64 (n : ℕ) : ℕ := n % 18446744073709551616

/-- Wrap at 2^128: u128 arithmetic of the source. -/
def wrap128 (n : ℕ) : ℕ := n % 340282366920938463463374607431768211456

/-- `static ITERATIONS: u64 = 500_000_000;` (line 12). -/
def ITERATIONS : ℕ := 500000000

/-- Program counter of the initiator (the `main` thread's loop,
lines 102-121). `exitedTarget`: the outer `while` condition
`S1 < ITERATIONS` failed. `exitedOuterTimeout`: the `break` at line 109.
`exitedInnerTimeout`: the `return` at line 116 (inside the busy spin). -/
inductive IPc where
  | outerCheck
  | innerSpin
  | doInc
  | exitedTarget
  | exitedOuterTimeout
  | exitedInnerTimeout
deriving DecidableEq, Repr

/-- Program counter of the responder (`run_thread`, lines 49-68).
`exited` covers both the `break` at line 55 and the `return` at line 61. -/
inductive RPc where
  | outerCheck
  | innerSpin
  | doInc
  | exited
deriving DecidableEq, Repr

/-- Shared and thread-local state of the two-thread system: the shared
counters `S1`, `S2` (lines 13-14), the initiator's `local_val` (`li`,
line 103), the responder's `local_val` (`lr`, line 50), and the two
program counters. -/
structure SysState where
  s1 : ℕ
  s2 : ℕ
  li : ℕ
  lr : ℕ
  pcI : IPc
  pcR : RPc
deriving DecidableEq, Repr

/-- One step of the initiator (`main` loop, lines 106-121) at time `now`
against the shared absolute `deadline`.  Mirrors the source order:
the outer loop first tests `S1 < ITERATIONS`, then `Instant::now() >=
timeout`; the inner spin first tests `S2 != local_val` and checks the
timeout only inside the spin body; on fall-through it performs
`local_val = S1.fetch_add(1, SeqCst) + 1`. -/
def iStep (deadline now : ℕ) (st : SysState) : SysState :=
  match st.pcI with
  | .outerCheck =>
      if ITERATIONS ≤ st.s1 then { st with pcI := .exitedTarget }
      else if deadline ≤ now then { st with pcI := .exitedOuterTimeout }
      else { st with pcI := .innerSpin }
  | .innerSpin =>
      if st.s2 = st.li then { st with pcI := .doInc }
      else if deadline ≤ now then { st with pcI := .exitedInnerTimeout }
      else st
  | .doInc =>
      { st with s1 := wrap64 (st.s1 + 1), li := wrap64 (st.s1 + 1), pcI := .outerCheck }
  | _ => st

/-- One step of the responder (`run_thread`, lines 49-68) at time `now`.
The source tests `Instant::now().duration_since(timeout) >
Duration::from_secs(0)`, i.e. `now > deadline` (strict), at the top of
the outer loop and inside the spin body; the spin first tests
`local_val == S1`; on change it performs
`local_val = S2.fetch_add(1, SeqCst) + 1`. -/
def rStep (deadline now : ℕ) (st : SysState) : SysState :=
  match st.pcR with
  | .outerCheck =>
      if deadline < now then { st with pcR := .exited }
      else { st with pcR := .innerSpin }
  | .innerSpin =>
      if st.lr = st.s1 then
        (if deadline < now then { st with pcR := .exited } else st)
      else { st with pcR := .doInc }
  | .doInc =>
      { st with s2 := wrap64 (st.s2 + 1), lr := wrap64 (st.s2 + 1), pcR := .outerCheck }
  | .exited => st

/-- Interleaving: at any instant either thread takes its next step, at
an arbitrary current time `now`. -/
inductive Step (deadline : ℕ) : SysState → SysState → Prop where
  | initiator (now : ℕ) (st : SysState) : Step deadline st (iStep deadline now st)
  | responder (now : ℕ) (st : SysState) : Step deadline st (rStep deadline now st)

/-- Initial state: `S1 = S2 = 0` (lines 13-14); both `local_val`s are
loaded from the still-untouched counters (lines 50 and 103), hence 0. -/
def initState : SysState :=
  { s1 := 0, s2 := 0, li := 0, lr := 0, pcI := .outerCheck, pcR := .outerCheck }

/-- States reachable in some run under a given deadline. -/
def Reachable (deadline : ℕ) (st : SysState) : Prop :=
  Relation.ReflTransGen (Step deadline) initState st

/-- Inductive invariant of the handshake: each thread's local value
tracks the counter it last wrote (`li = s1`, `lr = s2`), the counters
obey `s2 ≤ s1 ≤ s2 + 1` and `s1 ≤ ITERATIONS`, and the pending-increment
program points pin the counters down exactly. -/
def HandshakeInv (st : SysState) : Prop :=
  st.li = st.s1 ∧ st.lr = st.s2 ∧
  st.s2 ≤ st.s1 ∧ st.s1 ≤ st.s2 + 1 ∧ st.s1 ≤ ITERATIONS ∧
  (st.pcI = .doInc → st.s1 = st.s2 ∧ st.s1 < ITERATIONS) ∧
  (st.pcR = .doInc → st.s1 = st.s2 + 1) ∧
  (st.pcI = .innerSpin → st.s1 < ITERATIONS)

theorem inv_initState : HandshakeInv initState := by
  unfold HandshakeInv initState ITERATIONS
  decide

theorem inv_iStep (deadline now : ℕ) (st : SysState) (h : HandshakeInv st) :
    HandshakeInv (iStep deadline now st) := by
  obtain ⟨h1, h2, h3, h4, h5, h6, h7, h8⟩ := h
  cases hpc : st.pcI with
  | outerCheck =>
      simp only [iStep, hpc]
      split
      · exact ⟨h1, h2, h3, h4, h5, by simp, fun hr => h7 hr, by simp⟩
      · split
        · exact ⟨h1, h2, h3, h4, h5, by simp, fun hr => h7 hr, by simp⟩
        · refine ⟨h1, h2, h3, h4, h5, by simp, fun hr => h7 hr, ?_⟩
          intro _
          simp
          omega
  | innerSpin =>
      simp only [iStep, hpc]
      split
      · refine ⟨h1, h2, h3, h4, h5, ?_, fun hr => h7 hr, by simp⟩
        intro _
        refine ⟨?_, h8 hpc⟩
        simp
        omega
      · split
        · exact ⟨h1, h2, h3, h4, h5, by simp, fun hr => h7 hr, by simp⟩
        · exact ⟨h1, h2, h3, h4, h5, by simp [hpc], fun hr => h7 hr, fun _ => h8 hpc⟩
  | doInc =>
      obtain ⟨he, hlt⟩ := h6 hpc
      have hwrap : wrap64 (st.s1 + 1) = st.s1 + 1 := by
        unfold wrap64
        unfold ITERATIONS at hlt
        omega
      simp only [iStep, hpc]
      refine ⟨by simp [hwrap], by simpa using h2, ?_, ?_, ?_, by simp, ?_, by simp⟩
      · simp
        omega
      · simp
        omega
      · simp [hwrap]
        unfold ITERATIONS at hlt ⊢
        omega
      · intro hr
        have := h7 hr
        simp [hwrap]
        omega
  | exitedTarget =>
      simpa only [iStep, hpc] using ⟨h1, h2, h3, h4, h5, h6, h7, h8⟩
  | exitedOuterTimeout =>
      simpa only [iStep, hpc] using ⟨h1, h2, h3, h4, h5, h6, h7, h8⟩
  | exitedInnerTimeout =>
      simpa only [iStep, hpc] using ⟨h1, h2, h3, h4, h5, h6, h7, h8⟩

theorem inv_rStep (deadline now : ℕ) (st : SysState) (h : HandshakeInv st) :
    HandshakeInv (rStep deadline now st) := by
  obtain ⟨h1, h2, h3, h4, h5, h6, h7, h8⟩ := h
  cases hpc : st.pcR with
  | outerCheck =>
      simp only [rStep, hpc]
      split
      · exact ⟨h1, h2, h3, h4, h5, fun hi => h6 hi, by simp, fun hi => h8 hi⟩
      · exact ⟨h1, h2, h3, h4, h5, fun hi => h6 hi, by simp, fun hi => h8 hi⟩
  | innerSpin =>
      simp only [rStep, hpc]
      split
      · split
        · exact ⟨h1, h2, h3, h4, h5, fun hi => h6 hi, by simp, fun hi => h8 hi⟩
        · exact ⟨h1, h2, h3, h4, h5, fun hi => h6 hi, by simp [hpc], fun hi => h8 hi⟩
      · refine ⟨h1, h2, h3, h4, h5, fun hi => h6 hi, ?_, fun hi => h8 hi⟩
        intro _
        simp
        omega
  | doInc =>
      have he := h7 hpc
      have hwrap : wrap64 (st.s2 + 1) = st.s2 + 1 := by
        unfold wrap64
        unfold ITERATIONS at h5
        omega
      simp only [rStep, hpc]
      refine ⟨by simpa using h1, by simp [hwrap], ?_, ?_, by simpa using h5, ?_, by simp, ?_⟩
      · simp [hwrap]
        omega
      · simp [hwrap]
        omega
      · intro hi
        have := h6 hi
        simp
        omega
      · intro hi
        simpa using h8 hi
  | exited =>
      simpa only [rStep, hpc] using ⟨h1, h2, h3, h4, h5, h6, h7, h8⟩

theorem inv_step {deadline : ℕ} {a b : SysState} (hs : Step deadline a b)
    (h : HandshakeInv a) : HandshakeInv b :=
  match hs with
  | .initiator now st => inv_iStep deadline now st h
  | .responder now st => inv_rStep deadline now st h

theorem inv_reachable (deadline : ℕ) (st : SysState) (h : Reachable deadline st) :
    HandshakeInv st := by
  induction h with
  | refl => exact inv_initState
  | tail _ hstep ih => exact inv_step hstep ih

/-- The memory orderings used by the four atomic accesses of the
handshake (source lines 59, 66, 113, 120). -/
inductive MemOrdering where
  | relaxed
  | seqCst
deriving DecidableEq, Repr

/-- Ordering of the initiator's poll of `S2` (line 113: `S2.load(Ordering::Relaxed)`). -/
def s2_poll_ordering : MemOrdering := .relaxed

/-- Ordering of the initiator's increment of `S1` (line 120: `S1.fetch_add(1, Ordering::SeqCst)`). -/
def s1_fetch_add_ordering : MemOrdering := .seqCst

/-- Ordering of the responder's poll of `S1` (line 59: `S1.load(Ordering::Relaxed)`). -/
def s1_poll_ordering : MemOrdering := .relaxed

/-- Ordering of the responder's increment of `S2` (line 66: `S2.fetch_add(1, Ordering::SeqCst)`). -/
def s2_fetch_add_ordering : MemOrdering := .seqCst

/-- One line printed by the main thread to standard output
(lines 108, 115, 138-145), with the numeric payloads as fields. -/
inductive Line where
  | timeoutMain
  | timeoutSpinMain
  | duration (nanos : ℕ)
  | nsPerOp (v : ℕ)
  | opsSec (v : ℕ)
  | noOps
  | finals (s1 s2 : ℕ)
deriving DecidableEq, Repr

/-- `let actual_ops = final_s1 * 2;` (line 132), u64 multiplication. -/
def actual_ops (final_s1 : ℕ) : ℕ := wrap64 (final_s1 * 2)

/-- The report block of `main` (lines 134-145): if `actual_ops > 0`,
print duration, `ns_per_op = nanos / actual_ops as u128` and
`ops_sec = (actual_ops as u128 * 1_000_000_000) / nanos` (u128
truncating division), else the sentinel line; then the final counters. -/
def report (nanos final_s1 final_s2 : ℕ) : List Line :=
  if 0 < actual_ops final_s1 then
    [Line.duration nanos,
     Line.nsPerOp (nanos / actual_ops final_s1),
     Line.opsSec (wrap128 (actual_ops final_s1 * 1000000000) / nanos),
     Line.finals final_s1 final_s2]
  else
    [Line.noOps, Line.finals final_s1 final_s2]

/-- Standard output of the main thread as a function of how its loop
ended.  Target reached (outer `while` condition false) falls through to
the report; the outer-loop timeout `break` (lines 108-109) prints a
notice and falls through to the report; the inner busy-spin timeout
(lines 115-116) prints a notice and `return`s from `main`, so nothing
after it is printed. -/
def mainOutput (pc : IPc) (nanos final_s1 final_s2 : ℕ) : List Line :=
  match pc with
  | .exitedTarget => report nanos final_s1 final_s2
  | .exitedOuterTimeout => Line.timeoutMain :: report nanos final_s1 final_s2
  | .exitedInnerTimeout => [Line.timeoutSpinMain]
  | _ => []

/-- Whether an output fragment contains the report's closing
`s1 = .., s2 = ..` line (line 145); every report ends with it, so an
output with no `finals` line contains no report. -/
def hasReport (out : List Line) : Bool :=
  out.any fun l =>
    match l with
    | .finals _ _ => true
    | _ => false

/-- Outcome of the argument check at the top of `main` (lines 71-78):
fewer than 4 elements in `argv` prints the usage line and calls
`process::exit(-1)`; otherwise `main` proceeds to parse the three
arguments (lines 80-82). -/
inductive CliOutcome where
  | usageExit (code : Int)
  | parseArgs
deriving DecidableEq, Repr

/-- `if args.len() < 4 { ...usage...; process::exit(-1); }` (lines 72-78). -/
def cliCheck (args : List String) : CliOutcome :=
  if args.length < 4 then .usageExit (-1) else .parseArgs

/-- `set_main_thread_affinity` (lines 16-31), parameterised by the
return value of the external `sched_setaffinity` call: non-zero means
an error line naming the core and the code, then `process::exit(1)`. -/
def set_main_thread_affinity (core_id : ℕ) (ret : Int) : Except (ℕ × Int) Unit :=
  if ret ≠ 0 then .error (core_id, ret) else .ok ()

/-- `set_pthread_affinity` (lines 33-47), parameterised by the return
value of the external `pthread_setaffinity_np` call. -/
def set_pthread_affinity (core_id : ℕ) (ret : Int) : Except (ℕ × Int) Unit :=
  if ret ≠ 0 then .error (core_id, ret) else .ok ()

/-- How far `main`'s setup gets (lines 87-102): a failed affinity call
exits with code 1 carrying the announced core id and OS return code;
only when both calls return 0 does `main` reach `let start =
Instant::now()` (line 102) and the handshake loop. -/
inductive SetupPhase where
  | failedExit (exitCode : Int) (core : ℕ) (osCode : Int)
  | timingStarted
deriving DecidableEq, Repr

/-- Setup sequence of `main`: pin the main thread (line 88), spawn the
worker, pin it (line 99), then start timing.  The two `ret` arguments
are the external OS call results. -/
def mainSetup (main_core worker_core : ℕ) (retMain retWorker : Int) : SetupPhase :=
  match set_main_thread_affinity main_core retMain with
  | .error e => .failedExit 1 e.1 e.2
  | .ok () =>
    match set_pthread_affinity worker_core retWorker with
    | .error e => .failedExit 1 e.1 e.2
    | .ok () => .timingStarted

/-- C1: at every observable instant of every run, `0 ≤ s1 − s2 ≤ 1`:
`s1` may lead `s2` by at most one increment and `s2` never leads `s1`,
with both counters starting at 0.  (In ℕ the lower bound is
`s2 ≤ s1`.) -/
theorem counter_invariant (deadline : ℕ) (st : SysState)
    (h : Reachable deadline st) :
    initState.s1 = 0 ∧ initState.s2 = 0 ∧ st.s2 ≤ st.s1 ∧ st.s1 ≤ st.s2 + 1 := by
  obtain ⟨_, _, h3, h4, _⟩ := inv_reachable deadline st h
  exact ⟨rfl, rfl, h3, h4⟩

theorem counter_invariant_witness :
    initState.s1 = 0 ∧ initState.s2 = 0 ∧
    initState.s2 ≤ initState.s1 ∧ initState.s1 ≤ initState.s2 + 1 :=
  counter_invariant 0 initState Relation.ReflTransGen.refl

/-- C9: throughout every run `s1 ≤ ITERATIONS = 500_000_000` (only the
initiator writes `s1`, and only after observing `s1 < ITERATIONS`), so
the u64 product `actual_ops = final_s1 * 2` never wraps. -/
theorem s1_bounded_no_overflow (deadline : ℕ) (st : SysState)
    (h : Reachable deadline st) :
    st.s1 ≤ ITERATIONS ∧ ITERATIONS = 500000000 ∧
    actual_ops st.s1 = st.s1 * 2 := by
  have h5 := (inv_reachable deadline st h).2.2.2.2.1
  refine ⟨h5, rfl, ?_⟩
  unfold actual_ops wrap64
  unfold ITERATIONS at h5
  omega

theorem s1_bounded_no_overflow_witness :
    initState.s1 ≤ ITERATIONS ∧ ITERATIONS = 500000000 ∧
    actual_ops initState.s1 = initState.s1 * 2 :=
  s1_bounded_no_overflow 0 initState Relation.ReflTransGen.refl

/-- C5: for every run, including runs cut short by the deadline, the
completed-operations count `actual_ops` used by `report` equals twice
the final value actually read from `S1` (and is thus determined by the
actual counter, not by the configured target `ITERATIONS`). -/
theorem completed_ops_from_final_s1 (deadline : ℕ) (st : SysState)
    (h : Reachable deadline st) :
    actual_ops st.s1 = 2 * st.s1 := by
  have h5 := (inv_reachable deadline st h).2.2.2.2.1
  unfold actual_ops wrap64
  unfold ITERATIONS at h5
  omega

theorem completed_ops_from_final_s1_witness :
    actual_ops initState.s1 = 2 * initState.s1 :=
  completed_ops_from_final_s1 0 initState Relation.ReflTransGen.refl

/-- C6: if the completed-operations count is 0, `report` emits the
"no operations completed" sentinel and performs no division; the
`ns_per_op` and `ops_sec` divisions appear only in the branch guarded
by `actual_ops > 0`, so their divisor `actual_ops` is never zero. -/
theorem zero_ops_sentinel_no_division (nanos final_s1 final_s2 : ℕ) :
    (actual_ops final_s1 = 0 →
       report nanos final_s1 final_s2 =
         [Line.noOps, Line.finals final_s1 final_s2]) ∧
    (0 < actual_ops final_s1 →
       report nanos final_s1 final_s2 =
         [Line.duration nanos,
          Line.nsPerOp (nanos / actual_ops final_s1),
          Line.opsSec (wrap128 (actual_ops final_s1 * 1000000000) / nanos),
          Line.finals final_s1 final_s2] ∧
       actual_ops final_s1 ≠ 0) := by
  constructor
  · intro h
    simp [report, h]
  · intro h
    refine ⟨?_, by omega⟩
    simp [report, h]

theorem zero_ops_sentinel_no_division_witness :
    (report 10 0 7 = [Line.noOps, Line.finals 0 7]) ∧
    (report 10 1 1 =
       [Line.duration 10, Line.nsPerOp (10 / actual_ops 1),
        Line.opsSec (wrap128 (actual_ops 1 * 1000000000) / 10),
        Line.finals 1 1] ∧
     actual_ops 1 ≠ 0) :=
  ⟨(zero_ops_sentinel_no_division 10 0 7).1 (by decide),
   (zero_ops_sentinel_no_division 10 1 1).2 (by decide)⟩

/-- C10: `ns_per_op` and `ops_sec` are computed with truncating u128
integer division (`nanos / actual_ops` and
`actual_ops * 1_000_000_000 / nanos`), so both reported values round
down; in particular `ns_per_op` is reported as 0 whenever the elapsed
nanoseconds are fewer than the completed operations. -/
theorem truncating_division_rounding (nanos final_s1 final_s2 : ℕ)
    (hpos : 0 < actual_ops final_s1) :
    report nanos final_s1 final_s2 =
      [Line.duration nanos,
       Line.nsPerOp (nanos / actual_ops final_s1),
       Line.opsSec (wrap128 (actual_ops final_s1 * 1000000000) / nanos),
       Line.finals final_s1 final_s2] ∧
    (nanos / actual_ops final_s1) * actual_ops final_s1 ≤ nanos ∧
    (wrap128 (actual_ops final_s1 * 1000000000) / nanos) * nanos ≤
      wrap128 (actual_ops final_s1 * 1000000000) ∧
    (nanos < actual_ops final_s1 → nanos / actual_ops final_s1 = 0) := by
  refine ⟨by simp [report, hpos], Nat.div_mul_le_self _ _,
    Nat.div_mul_le_self _ _, fun hlt => Nat.div_eq_of_lt hlt⟩

theorem truncating_division_rounding_witness :
    report 1 1 1 =
      [Line.duration 1,
       Line.nsPerOp (1 / actual_ops 1),
       Line.opsSec (wrap128 (actual_ops 1 * 1000000000) / 1),
       Line.finals 1 1] ∧
    (1 / actual_ops 1) * actual_ops 1 ≤ 1 ∧
    (wrap128 (actual_ops 1 * 1000000000) / 1) * 1 ≤
      wrap128 (actual_ops 1 * 1000000000) ∧
    (1 < actual_ops 1 → 1 / actual_ops 1 = 0) :=
  truncating_division_rounding 1 1 1 (by decide)

/-- C4: the two handshake loops follow the specified steps: the
initiator busy-polls `S2` (relaxed) without mutating anything until it
equals its tracked expected value, then fetch-adds 1 to `S1` (SeqCst)
and takes the post-increment value as the next expected value; the
responder busy-polls `S1` (relaxed) until it differs from its tracked
last-seen value, then fetch-adds 1 to `S2` (SeqCst) and tracks the new
result. -/
theorem handshake_loop_steps (deadline now : ℕ) (st : SysState) :
    (st.pcI = .innerSpin → st.s2 ≠ st.li → now < deadline →
       iStep deadline now st = st) ∧
    (st.pcI = .innerSpin → st.s2 = st.li →
       iStep deadline now st = { st with pcI := .doInc }) ∧
    (st.pcI = .doInc →
       iStep deadline now st =
         { st with s1 := wrap64 (st.s1 + 1), li := wrap64 (st.s1 + 1),
                   pcI := .outerCheck }) ∧
    (st.pcR = .innerSpin → st.lr = st.s1 → now ≤ deadline →
       rStep deadline now st = st) ∧
    (st.pcR = .innerSpin → st.lr ≠ st.s1 →
       rStep deadline now st = { st with pcR := .doInc }) ∧
    (st.pcR = .doInc →
       rStep deadline now st =
         { st with s2 := wrap64 (st.s2 + 1), lr := wrap64 (st.s2 + 1),
                   pcR := .outerCheck }) ∧
    s2_poll_ordering = .relaxed ∧ s1_fetch_add_ordering = .seqCst ∧
    s1_poll_ordering = .relaxed ∧ s2_fetch_add_ordering = .seqCst := by
  refine ⟨?_, ?_, ?_, ?_, ?_, ?_, rfl, rfl, rfl, rfl⟩
  · intro hpc hne hlt
    simp [iStep, hpc, hne, Nat.not_le.mpr hlt]
  · intro hpc heq
    simp [iStep, hpc, heq]
  · intro hpc
    simp [iStep, hpc]
  · intro hpc heq hle
    simp [rStep, hpc, heq, Nat.not_lt.mpr hle]
  · intro hpc hne
    simp [rStep, hpc, hne]
  · intro hpc
    simp [rStep, hpc]

theorem handshake_loop_steps_witness :
    (iStep 5 0 { s1 := 1, s2 := 0, li := 1, lr := 0, pcI := .innerSpin, pcR := .innerSpin }
       = { s1 := 1, s2 := 0, li := 1, lr := 0, pcI := .innerSpin, pcR := .innerSpin }) ∧
    (iStep 5 0 { s1 := 1, s2 := 1, li := 1, lr := 1, pcI := .innerSpin, pcR := .innerSpin }
       = { s1 := 1, s2 := 1, li := 1, lr := 1, pcI := .doInc, pcR := .innerSpin }) ∧
    (iStep 5 0 { s1 := 1, s2 := 1, li := 1, lr := 1, pcI := .doInc, pcR := .innerSpin }
       = { s1 := wrap64 2, s2 := 1, li := wrap64 2, lr := 1, pcI := .outerCheck, pcR := .innerSpin }) ∧
    (rStep 5 0 { s1 := 1, s2 := 1, li := 1, lr := 1, pcI := .outerCheck, pcR := .innerSpin }
       = { s1 := 1, s2 := 1, li := 1, lr := 1, pcI := .outerCheck, pcR := .innerSpin }) ∧
    (rStep 5 0 { s1 := 2, s2 := 1, li := 2, lr := 1, pcI := .outerCheck, pcR := .innerSpin }
       = { s1 := 2, s2 := 1, li := 2, lr := 1, pcI := .outerCheck, pcR := .doInc }) ∧
    (rStep 5 0 { s1 := 2, s2 := 1, li := 2, lr := 1, pcI := .outerCheck, pcR := .doInc }
       = { s1 := 2, s2 := wrap64 2, li := 2, lr := wrap64 2, pcI := .outerCheck, pcR := .outerCheck }) :=
  ⟨(handshake_loop_steps 5 0 _).1 rfl (by decide) (by decide),
   (handshake_loop_steps 5 0 _).2.1 rfl (by decide),
   (handshake_loop_steps 5 0 _).2.2.1 rfl,
   (handshake_loop_steps 5 0 _).2.2.2.1 rfl (by decide) (by decide),
   (handshake_loop_steps 5 0 _).2.2.2.2.1 rfl (by decide),
   (handshake_loop_steps 5 0 _).2.2.2.2.2.1 rfl⟩

/-- C7: in deadline mode both threads compare the current time against
the shared absolute deadline on every iteration of their outer loops
and of their inner busy-poll loops, and exit the loop at once when the
comparison shows expiry (the initiator tests `now >= timeout`, the
responder `duration_since(timeout) > 0`, i.e. `now > timeout`), whether
or not mid-round. -/
theorem deadline_checked_every_spin (deadline now : ℕ) (st : SysState) :
    (deadline ≤ now → st.pcI = .outerCheck → st.s1 < ITERATIONS →
       iStep deadline now st = { st with pcI := .exitedOuterTimeout }) ∧
    (deadline ≤ now → st.pcI = .innerSpin → st.s2 ≠ st.li →
       iStep deadline now st = { st with pcI := .exitedInnerTimeout }) ∧
    (deadline < now → st.pcR = .outerCheck →
       rStep deadline now st = { st with pcR := .exited }) ∧
    (deadline < now → st.pcR = .innerSpin → st.lr = st.s1 →
       rStep deadline now st = { st with pcR := .exited }) := by
  refine ⟨?_, ?_, ?_, ?_⟩
  · intro hd hpc hlt
    simp [iStep, hpc, hd, Nat.not_le.mpr hlt]
  · intro hd hpc hne
    simp [iStep, hpc, hd, hne]
  · intro hd hpc
    simp [rStep, hpc, hd]
  · intro hd hpc heq
    simp [rStep, hpc, hd, heq]

theorem deadline_checked_every_spin_witness :
    (iStep 5 9 { s1 := 1, s2 := 1, li := 1, lr := 1, pcI := .outerCheck, pcR := .innerSpin }
       = { s1 := 1, s2 := 1, li := 1, lr := 1, pcI := .exitedOuterTimeout, pcR := .innerSpin }) ∧
    (iStep 5 9 { s1 := 1, s2 := 0, li := 1, lr := 0, pcI := .innerSpin, pcR := .innerSpin }
       = { s1 := 1, s2 := 0, li := 1, lr := 0, pcI := .exitedInnerTimeout, pcR := .innerSpin }) ∧
    (rStep 5 9 { s1 := 1, s2 := 1, li := 1, lr := 1, pcI := .outerCheck, pcR := .outerCheck }
       = { s1 := 1, s2 := 1, li := 1, lr := 1, pcI := .outerCheck, pcR := .exited }) ∧
    (rStep 5 9 { s1 := 1, s2 := 1, li := 1, lr := 1, pcI := .outerCheck, pcR := .innerSpin }
       = { s1 := 1, s2 := 1, li := 1, lr := 1, pcI := .outerCheck, pcR := .exited }) :=
  ⟨(deadline_checked_every_spin 5 9 _).1 (by decide) rfl (by decide),
   (deadline_checked_every_spin 5 9 _).2.1 (by decide) rfl (by decide),
   (deadline_checked_every_spin 5 9 _).2.2.1 (by decide) rfl,
   (deadline_checked_every_spin 5 9 _).2.2.2 (by decide) rfl (by decide)⟩

/-- C8: whenever the OS affinity call returns non-zero for either
thread, `main` exits with code 1 carrying an error message that names
the requested core id and the OS return code, and never reaches the
point where handshake timing starts. -/
theorem affinity_failure_fatal (main_core worker_core : ℕ)
    (retMain retWorker : Int) :
    (retMain ≠ 0 →
       mainSetup main_core worker_core retMain retWorker
         = .failedExit 1 main_core retMain) ∧
    (retMain = 0 → retWorker ≠ 0 →
       mainSetup main_core worker_core retMain retWorker
         = .failedExit 1 worker_core retWorker) ∧
    (∀ (c : ℕ) (e o : Int), SetupPhase.failedExit e c o ≠ .timingStarted) := by
  refine ⟨?_, ?_, fun c e o => by simp⟩
  · intro h
    simp [mainSetup, set_main_thread_affinity, h]
  · intro h0 h
    simp [mainSetup, set_main_thread_affinity, set_pthread_affinity, h0, h]

theorem affinity_failure_fatal_witness :
    (mainSetup 3 4 (-1) 0 = .failedExit 1 3 (-1)) ∧
    (mainSetup 3 4 0 22 = .failedExit 1 4 22) ∧
    (SetupPhase.failedExit 1 3 (-1) ≠ .timingStarted) :=
  ⟨(affinity_failure_fatal 3 4 (-1) 0).1 (by decide),
   (affinity_failure_fatal 3 4 0 22).2.1 rfl (by decide),
   (affinity_failure_fatal 3 4 0 22).2.2 3 1 (-1)⟩

/-- C3 counterexample: invoking the program with exactly two positional
arguments (`argv` has 3 elements) does not select any run mode: the
length check at the top of `main` prints the usage line and calls
`process::exit(-1)`, so the program never proceeds to parse arguments,
let alone run without a deadline. -/
theorem two_arg_invocation_rejected :
    cliCheck ["coreping", "0", "1"] = .usageExit (-1) ∧
    cliCheck ["coreping", "0", "1"] ≠ .parseArgs := by
  constructor
  · rfl
  · intro h
    simp [cliCheck] at h

/-- C3 (amended): there is no two-argument fixed mode; the timeout
argument is mandatory.  Any invocation with fewer than four `argv`
entries (program name plus at most two positional arguments) exits via
the usage message with code −1, and only invocations with at least
four entries proceed to parse `<main_core> <worker_core>
<timeout_seconds>`. -/
theorem timeout_argument_required (args : List String) :
    (args.length < 4 → cliCheck args = .usageExit (-1)) ∧
    (4 ≤ args.length → cliCheck args = .parseArgs) := by
  constructor
  · intro h
    simp [cliCheck, h]
  · intro h
    simp [cliCheck, Nat.not_lt.mpr h]

theorem timeout_argument_required_witness :
    cliCheck ["coreping", "0", "1"] = .usageExit (-1) ∧
    cliCheck ["coreping", "0", "1", "2"] = .parseArgs :=
  ⟨(timeout_argument_required ["coreping", "0", "1"]).1 (by decide),
   (timeout_argument_required ["coreping", "0", "1", "2"]).2 (by decide)⟩

/-- A state reached by a run under deadline 5 in which the initiator
observed expiry inside its inner busy-spin (line 114) and `return`ed
from `main` (line 116): the initiator completed one increment
(`s1 = 1`), the responder never ran, and the fifth step observes
`now = 10 ≥ 5` while spinning on `s2 = 0 ≠ local_val = 1`. -/
def stInnerTimeout : SysState :=
  { s1 := 1, s2 := 0, li := 1, lr := 0,
    pcI := .exitedInnerTimeout, pcR := .outerCheck }

/-- C2 counterexample: a run whose handshake loop exits because expiry
is observed during the inner busy-spin wait does NOT reach the report:
`main` returns at line 116 after the notice line, so the output
carries no report lines (in particular no final `s1`/`s2` line). -/
theorem inner_spin_timeout_skips_report :
    Reachable 5 stInnerTimeout ∧
    stInnerTimeout.pcI = .exitedInnerTimeout ∧
    hasReport (mainOutput stInnerTimeout.pcI 100 stInnerTimeout.s1 stInnerTimeout.s2)
      = false := by
  refine ⟨?_, rfl, by decide⟩
  have stepI : ∀ (now : ℕ) (st : SysState), Step 5 st (iStep 5 now st) :=
    fun now st => Step.initiator now st
  have h1 : Reachable 5 (iStep 5 0 initState) :=
    Relation.ReflTransGen.single (stepI 0 initState)
  have h2 := Relation.ReflTransGen.tail h1 (stepI 0 _)
  have h3 := Relation.ReflTransGen.tail h2 (stepI 0 _)
  have h4 := Relation.ReflTransGen.tail h3 (stepI 0 _)
  have h5 := Relation.ReflTransGen.tail h4 (stepI 10 _)
  have e : iStep 5 10 (iStep 5 0 (iStep 5 0 (iStep 5 0 (iStep 5 0 initState))))
      = stInnerTimeout := by decide
  rwa [e] at h5

/-- C2 (amended): when the initiator's loop exits by reaching the
target or by the outer-loop deadline `break`, the fixed-order report
follows (elapsed nanoseconds, then ns per op, then ops per second — or
the zero-ops sentinel — then the final `s1`/`s2` line); but when expiry
is observed during the inner busy-spin wait, `main` returns after a
notice line and no report is printed. -/
theorem report_printed_exactly_on_break (nanos final_s1 final_s2 : ℕ) :
    mainOutput .exitedTarget nanos final_s1 final_s2
      = report nanos final_s1 final_s2 ∧
    mainOutput .exitedOuterTimeout nanos final_s1 final_s2
      = Line.timeoutMain :: report nanos final_s1 final_s2 ∧
    hasReport (report nanos final_s1 final_s2) = true ∧
    mainOutput .exitedInnerTimeout nanos final_s1 final_s2
      = [Line.timeoutSpinMain] ∧
    hasReport [Line.timeoutSpinMain] = false := by
  refine ⟨rfl, rfl, ?_, rfl, rfl⟩
  unfold report
  split <;> rfl
